import Mathlib

/-!
Verification development for `sarif2html.py`, a single-file converter from
SARIF JSON documents to a static HTML report.

The Python program manipulates dynamically typed JSON data (`dict.get` with
defaults, truthiness tests, indexing, iteration) and signals irregular shapes
through exceptions.  The embedding mirrors this: JSON values are a `Json`
inductive, each primitive Python operation on them is a function into
`Except PyErr`, and every function of the converter
(`load_sarif`, `get_statistics`, `categorize_results`, `escape_html`,
`get_location_info`, `generate_html`, `main`) is translated into this monad,
statement by statement, in source order.  Places where the Python code
catches exceptions (`load_sarif`'s catch-all, `get_location_info`'s bare
`except`) catch the `Except` error in the same way.

The HTML output is modelled as the list of string pieces that the Python
code concatenates (`String.join` of the pieces is the report text); piece
boundaries are exactly the f-string interpolation boundaries of the source.
-/

namespace SarifToHtml

/-- A parsed JSON value, as produced by Python's `json.load` (numbers are
modelled as integers; the repository's data paths never depend on floats). -/
inductive Json where
  | null
  | bool (b : Bool)
  | num (n : Int)
  | str (s : String)
  | arr (elems : List Json)
  | obj (members : List (String × Json))
deriving Repr, Inhabited

namespace Json

mutual
/-- Structural equality test on JSON values (Python `==` on parsed JSON). -/
def beq : Json → Json → Bool
  | .null, .null => true
  | .bool a, .bool b => a == b
  | .num a, .num b => a == b
  | .str a, .str b => a == b
  | .arr xs, .arr ys => beqL xs ys
  | .obj xs, .obj ys => beqO xs ys
  | _, _ => false
def beqL : List Json → List Json → Bool
  | [], [] => true
  | x :: xs, y :: ys => beq x y && beqL xs ys
  | _, _ => false
def beqO : List (String × Json) → List (String × Json) → Bool
  | [], [] => true
  | (k, v) :: xs, (k2, v2) :: ys => k == k2 && beq v v2 && beqO xs ys
  | _, _ => false
end

mutual
theorem beq_iff : ∀ (a b : Json), beq a b = true ↔ a = b
  | .null, .null => by simp [beq]
  | .null, .bool _ => by simp [beq]
  | .null, .num _ => by simp [beq]
  | .null, .str _ => by simp [beq]
  | .null, .arr _ => by simp [beq]
  | .null, .obj _ => by simp [beq]
  | .bool _, .null => by simp [beq]
  | .bool _, .bool _ => by simp [beq]
  | .bool _, .num _ => by simp [beq]
  | .bool _, .str _ => by simp [beq]
  | .bool _, .arr _ => by simp [beq]
  | .bool _, .obj _ => by simp [beq]
  | .num _, .null => by simp [beq]
  | .num _, .bool _ => by simp [beq]
  | .num _, .num _ => by simp [beq]
  | .num _, .str _ => by simp [beq]
  | .num _, .arr _ => by simp [beq]
  | .num _, .obj _ => by simp [beq]
  | .str _, .null => by simp [beq]
  | .str _, .bool _ => by simp [beq]
  | .str _, .num _ => by simp [beq]
  | .str _, .str _ => by simp [beq]
  | .str _, .arr _ => by simp [beq]
  | .str _, .obj _ => by simp [beq]
  | .arr _, .null => by simp [beq]
  | .arr _, .bool _ => by simp [beq]
  | .arr _, .num _ => by simp [beq]
  | .arr _, .str _ => by simp [beq]
  | .arr xs, .arr ys => by simp [beq, beqL_iff xs ys]
  | .arr _, .obj _ => by simp [beq]
  | .obj _, .null => by simp [beq]
  | .obj _, .bool _ => by simp [beq]
  | .obj _, .num _ => by simp [beq]
  | .obj _, .str _ => by simp [beq]
  | .obj _, .arr _ => by simp [beq]
  | .obj xs, .obj ys => by simp [beq, beqO_iff xs ys]
theorem beqL_iff : ∀ (xs ys : List Json), beqL xs ys = true ↔ xs = ys
  | [], [] => by simp [beqL]
  | [], _ :: _ => by simp [beqL]
  | _ :: _, [] => by simp [beqL]
  | x :: xs, y :: ys => by simp [beqL, beq_iff x y, beqL_iff xs ys]
theorem beqO_iff : ∀ (xs ys : List (String × Json)), beqO xs ys = true ↔ xs = ys
  | [], [] => by simp [beqO]
  | [], _ :: _ => by simp [beqO]
  | _ :: _, [] => by simp [beqO]
  | (k, v) :: xs, (k2, v2) :: ys => by
      simp [beqO, beq_iff v v2, beqO_iff xs ys, and_assoc]
end

instance : BEq Json := ⟨beq⟩

theorem beq_def (a b : Json) : (a == b) = beq a b := rfl

instance : LawfulBEq Json where
  eq_of_beq h := (beq_iff _ _).mp h
  rfl := by intro a; exact (beq_iff a a).mpr rfl

instance : DecidableEq Json := fun a b =>
  decidable_of_iff (beq a b = true) (beq_iff a b)

/-- Python truthiness (`if x:`) of a JSON value: `None`, `False`, `0`, `""`,
`[]` and `{}` are falsy, everything else truthy. -/
def truthy : Json → Bool
  | .null => false
  | .bool b => b
  | .num n => n != 0
  | .str s => !s.isEmpty
  | .arr xs => !xs.isEmpty
  | .obj ms => !ms.isEmpty

end Json

/-- The exception classes the modelled Python operations can raise. -/
inductive PyErr where
  | attributeError
  | typeError
  | keyError
  | indexError
deriving Repr, DecidableEq

/-- Python `x.get(k, d)`: dictionaries look the key up (first binding; parsed
JSON never has duplicate keys) falling back to the default; any non-dict
raises `AttributeError`. -/
def pyGetD : Json → String → Json → Except PyErr Json
  | .obj ms, k, d => .ok ((ms.lookup k).getD d)
  | _, _, _ => .error .attributeError

/-- Python `x[k]` for a string key: dict subscription (`KeyError` if absent),
`TypeError` on anything unsubscriptable. -/
def pySubscr : Json → String → Except PyErr Json
  | .obj ms, k => match ms.lookup k with
    | some v => .ok v
    | none => .error .keyError
  | _, _ => .error .typeError

/-- Python `x[i]` for a non-negative integer index: list indexing
(`IndexError` out of range), string indexing (yielding a one-character
string), `KeyError` on a dict whose keys are strings (as parsed JSON keys
are), `TypeError` otherwise. -/
def pyIndex : Json → Nat → Except PyErr Json
  | .arr xs, i => match xs.get? i with
    | some v => .ok v
    | none => .error .indexError
  | .str s, i => match s.data.get? i with
    | some c => .ok (.str (String.singleton c))
    | none => .error .indexError
  | .obj _, _ => .error .keyError
  | _, _ => .error .typeError

/-- Python `len(x)`: defined for strings, lists and dicts; `TypeError`
otherwise. -/
def pyLen : Json → Except PyErr Nat
  | .arr xs => .ok xs.length
  | .str s => .ok s.length
  | .obj ms => .ok ms.length
  | _ => .error .typeError

/-- Python `for y in x`: lists yield elements, strings yield one-character
strings, dicts yield their keys; anything else raises `TypeError`. -/
def pyIter : Json → Except PyErr (List Json)
  | .arr xs => .ok xs
  | .str s => .ok (s.data.map fun c => .str (String.singleton c))
  | .obj ms => .ok (ms.map fun kv => .str kv.1)
  | _ => .error .typeError

/-- Using a value as a dict key or set element requires hashability: parsed
JSON lists and dicts are unhashable (`TypeError`), scalars are hashable. -/
def hashGuard : Json → Except PyErr Unit
  | .arr _ => .error .typeError
  | .obj _ => .error .typeError
  | _ => .ok ()

/-- The apostrophe character (used by Python `repr` of strings). -/
def apos : Char := Char.ofNat 39

mutual
/-- Python `repr` of a parsed JSON value (the form `str` uses for values
nested inside containers). -/
def pyRepr : Json → String
  | .null => "None"
  | .bool true => "True"
  | .bool false => "False"
  | .num n => toString n
  | .str s => String.singleton apos ++ s ++ String.singleton apos
  | .arr xs => "[" ++ pyReprArr xs ++ "]"
  | .obj ms => "\x7b" ++ pyReprObj ms ++ "\x7d"
def pyReprArr : List Json → String
  | [] => ""
  | [x] => pyRepr x
  | x :: y :: xs => pyRepr x ++ ", " ++ pyReprArr (y :: xs)
def pyReprObj : List (String × Json) → String
  | [] => ""
  | [(k, v)] => String.singleton apos ++ k ++ String.singleton apos ++ ": " ++ pyRepr v
  | (k, v) :: m :: ms =>
      String.singleton apos ++ k ++ String.singleton apos ++ ": " ++ pyRepr v ++ ", "
        ++ pyReprObj (m :: ms)
end

/-- Python `str` of a parsed JSON value: strings render as themselves,
everything else as its `repr`. -/
def pyStr : Json → String
  | .str s => s
  | .null => pyRepr .null
  | .bool b => pyRepr (.bool b)
  | .num n => pyRepr (.num n)
  | .arr xs => pyRepr (.arr xs)
  | .obj ms => pyRepr (.obj ms)

/-- One character of `html.escape` (quote=True): `&`, `<`, `>`, `"` and the
apostrophe are replaced by entities, everything else kept. -/
def escChar (c : Char) : String :=
  if c = '&' then "&amp;"
  else if c = '<' then "&lt;"
  else if c = '>' then "&gt;"
  else if c = '"' then "&quot;"
  else if c = apos then "&#x27;"
  else String.singleton c

/-- `html.escape` on a character list. -/
def htmlEscapeList : List Char → List Char
  | [] => []
  | c :: cs => (escChar c).data ++ htmlEscapeList cs

/-- `html.escape(s, quote=True)`: Python replaces `&` first and then the
other four specials, which is character-wise. -/
def htmlEscapeStr (s : String) : String := ⟨htmlEscapeList s.data⟩

/-- `SarifToHtmlConverter.escape_html`: falsy values render as the empty
string, anything else as `html.escape(str(text))`. -/
def escape_html (text : Json) : String :=
  if text.truthy then htmlEscapeStr (pyStr text) else ""

/-! ### Loader (`load_sarif`, source lines 23-41) -/

/-- The body of `load_sarif`'s `try` block after `json.load` succeeded:
reads `runs`, and from `runs[0]` the `results` and
`toolExecutionNotifications` sequences; the trailing `pyLen` calls model the
two `len(...)` progress prints inside the `try` block, which can themselves
raise on unsized values. -/
def load_sarif_core (data : Json) : Except PyErr (Json × Json) := do
  let runsV ← pyGetD data "runs" Json.null
  if runsV.truthy then do
    let runs ← pySubscr data "runs"
    let run ← pyIndex runs 0
    let results ← pyGetD run "results" (.arr [])
    let notifs ← pyGetD run "toolExecutionNotifications" (.arr [])
    let _ ← pyLen results
    let _ ← pyLen notifs
    pure (results, notifs)
  else do
    let _ ← pyLen (.arr [])
    let _ ← pyLen (.arr [])
    pure (.arr [], .arr [])

/-- `SarifToHtmlConverter.load_sarif`.  The input is `none` when the file
cannot be read or its content is not syntactically valid JSON (both raise
inside the `try`), `some data` for the parsed document.  The catch-all
`except` turns every raised exception into a `False` return, leaving
`self.results`/`self.notifications` at their initial `[]`. -/
def load_sarif (input : Option Json) : Bool × Json × Json :=
  match input with
  | none => (false, .arr [], .arr [])
  | some data =>
    match load_sarif_core data with
    | .ok (r, n) => (true, r, n)
    | .error _ => (false, .arr [], .arr [])

/-! ### Statistics aggregator (`get_statistics`, source lines 43-81) -/

/-- What one loop iteration of `get_statistics` reads from a result, in
source order: the (defaulted) `level` (checked hashable for the
`by_level` key), the first location's `uri` when `locations` is truthy and
the `uri` truthy (checked hashable for the file set and `by_file` key), and
the `ruleId` when truthy (checked hashable for the rule set). -/
structure ResultInfo where
  level : Json
  uri : Option Json
  rule : Option Json
deriving Repr, DecidableEq

/-- The reads and checks of one `get_statistics` loop iteration. -/
def resultInfo (result : Json) : Except PyErr ResultInfo := do
  let level ← pyGetD result "level" (.str "warning")
  hashGuard level
  let locs ← pyGetD result "locations" Json.null
  let uri? ←
    if locs.truthy then do
      let locsV ← pySubscr result "locations"
      let loc0 ← pyIndex locsV 0
      let phys ← pyGetD loc0 "physicalLocation" (.obj [])
      let art ← pyGetD phys "artifactLocation" (.obj [])
      let uri ← pyGetD art "uri" Json.null
      if uri.truthy then do
        hashGuard uri
        pure (some uri)
      else pure none
    else pure none
  let ruleV ← pyGetD result "ruleId" Json.null
  let rule? ←
    if ruleV.truthy then do
      hashGuard ruleV
      pure (some ruleV)
    else pure none
  pure ⟨level, uri?, rule?⟩

/-- Increment the counter for `k` in an insertion-ordered counting map
(Python `defaultdict(int)`: a fresh key is appended at the end). -/
def bump : List (Json × Nat) → Json → List (Json × Nat)
  | [], k => [(k, 1)]
  | (a, n) :: t, k => if a == k then (a, n + 1) :: t else (a, n) :: bump t k

/-- Add an element to an insertion-ordered set (Python `set.add`; only the
cardinality of the converter's sets is ever observed). -/
def insertSet (s : List Json) (x : Json) : List Json :=
  if x ∈ s then s else s ++ [x]

/-- The mutable counters of `get_statistics` while the loop runs. -/
structure StatsAcc where
  errors : Nat := 0
  warnings : Nat := 0
  notes : Nat := 0
  filesSet : List Json := []
  rulesSet : List Json := []
  by_level : List (Json × Nat) := []
  by_file : List (Json × Nat) := []
deriving Repr, DecidableEq

/-- One loop iteration of `get_statistics` over the pre-read fields. -/
def aggregate_step (s : StatsAcc) (i : ResultInfo) : StatsAcc :=
  let s := { s with by_level := bump s.by_level i.level }
  let s :=
    if i.level == .str "error" then { s with errors := s.errors + 1 }
    else if i.level == .str "warning" then { s with warnings := s.warnings + 1 }
    else if i.level == .str "note" then { s with notes := s.notes + 1 }
    else s
  let s :=
    match i.uri with
    | some u => { s with filesSet := insertSet s.filesSet u, by_file := bump s.by_file u }
    | none => s
  match i.rule with
  | some r => { s with rulesSet := insertSet s.rulesSet r }
  | none => s

/-- The `stats` dict as returned (after `files`/`rules` were replaced by
their cardinalities at source lines 78-79). -/
structure Stats where
  total : Nat
  errors : Nat
  warnings : Nat
  notes : Nat
  files : Nat
  rules : Nat
  by_level : List (Json × Nat)
  by_file : List (Json × Nat)
deriving Repr, DecidableEq, Inhabited

/-- `SarifToHtmlConverter.get_statistics`: a single pass over
`self.results` accumulating per-level counters, the distinct file and rule
sets, and the per-level/per-file counting maps. -/
def get_statistics (results : Json) : Except PyErr Stats := do
  let n ← pyLen results
  let items ← pyIter results
  let infos ← items.mapM resultInfo
  let acc := infos.foldl aggregate_step {}
  pure
    { total := n, errors := acc.errors, warnings := acc.warnings, notes := acc.notes,
      files := acc.filesSet.length, rules := acc.rulesSet.length,
      by_level := acc.by_level, by_file := acc.by_file }

/-! ### Categorizer (`categorize_results`, source lines 83-91) -/

/-- Append `r` to the group stored under `level` (the key is present). -/
def appendAt : List (Json × List Json) → Json → Json → List (Json × List Json)
  | [], _, _ => []
  | (k, g) :: t, level, r =>
    if k == level then (k, g ++ [r]) :: t else (k, g) :: appendAt t level r

/-- `categorized[level] = []` when absent, then
`categorized[level].append(result)` (insertion order: a fresh level key goes
to the end of the dict). -/
def catAppend (cat : List (Json × List Json)) (level : Json) (r : Json) :
    List (Json × List Json) :=
  if (cat.lookup level).isSome then appendAt cat level r else cat ++ [(level, [r])]

/-- One loop iteration of `categorize_results`: read the (defaulted)
`level`, use it as a dict key (hashability), file the result. -/
def categorize_step (cat : List (Json × List Json)) (result : Json) :
    Except PyErr (List (Json × List Json)) := do
  let level ← pyGetD result "level" (.str "warning")
  hashGuard level
  pure (catAppend cat level result)

/-- The `level` read of one `categorize_results` iteration on its own (used
to state theorems about the categorizer). -/
def levelOfE (result : Json) : Except PyErr Json := do
  let level ← pyGetD result "level" (.str "warning")
  hashGuard level
  pure level

/-- `SarifToHtmlConverter.categorize_results`: partitions `self.results`
into the dict initialized with the `error`/`warning`/`note` groups. -/
def categorize_results (results : Json) : Except PyErr (List (Json × List Json)) := do
  let items ← pyIter results
  items.foldlM categorize_step [(.str "error", []), (.str "warning", []), (.str "note", [])]

/-! ### Location extractor (`get_location_info`, source lines 99-123) -/

/-- The display-ready location view (values keep their raw JSON form: the
numeric fields are rendered through `str`, the file and snippet through
`escape_html`). -/
structure LocInfo where
  file : Json
  start_line : Json
  start_column : Json
  end_line : Json
  end_column : Json
  snippet : Json
deriving Repr, DecidableEq

/-- The `try` body of `get_location_info`, in source order. -/
def get_location_info_core (result : Json) : Except PyErr LocInfo := do
  let locs ← pyGetD result "locations" (.arr [.obj []])
  let location ← pyIndex locs 0
  let physical ← pyGetD location "physicalLocation" (.obj [])
  let artifact ← pyGetD physical "artifactLocation" (.obj [])
  let region ← pyGetD physical "region" (.obj [])
  let file ← pyGetD artifact "uri" (.str "unknown")
  let sl ← pyGetD region "startLine" (.str "?")
  let sc ← pyGetD region "startColumn" (.str "?")
  let el ← pyGetD region "endLine" (.str "?")
  let ec ← pyGetD region "endColumn" (.str "?")
  let snipD ← pyGetD region "snippet" (.obj [])
  let snippet ← pyGetD snipD "text" (.str "")
  pure ⟨file, sl, sc, el, ec, snippet⟩

/-- The record returned by `get_location_info`'s bare `except` branch. -/
def locDefault : LocInfo :=
  ⟨.str "unknown", .str "?", .str "?", .str "?", .str "?", .str ""⟩

/-- `SarifToHtmlConverter.get_location_info`: the extraction with its bare
`except` catch-all; total by construction. -/
def get_location_info (result : Json) : LocInfo :=
  match get_location_info_core result with
  | .ok v => v
  | .error _ => locDefault


/-! ### Renderer (`generate_html`, source lines 125-729)

The report text is the `String.join` of an ordered list of pieces; the
constants below are the literal template fragments of the source's
f-strings (CSS included), split exactly at the interpolation sites, and the
functions interleave them with the interpolated values in source order. -/

def hd0 : String := "<!DOCTYPE html>\n<html lang=\"en\">\n<head>\n    <meta charset=\"UTF-8\">\n    <meta name=\"viewport\" content=\"width=device-width, initial-scale=1.0\">\n    <title>SARIF Report - "

def hd1p0 : String := "</title>\n    <style>\n        * \x7b\n            margin: 0;\n            padding: 0;\n            box-sizing: border-box;\n        \x7d\n\n        body \x7b\n            font-family: -apple-system, BlinkMacSystemFont, \x27Segoe UI\x27, Roboto, sans-serif;\n            background: #f5f7fa;\n            color: #333;\n            line-height: 1.6;\n        \x7d\n\n        .container \x7b\n            max-width: 1200px;\n            margin: 0 auto;\n            padding: 2rem;\n        \x7d\n\n        header \x7b\n            background: linear-gradient(135deg, #667eea 0%, #764ba2 100%);\n            color: white;\n            padding: 2rem;\n            border-radius: 0.5rem;\n            margin-bottom: 2rem;\n            box-shadow: 0 4px 6px rgba(0, 0, 0, 0.1);\n        \x7d\n\n        h1 \x7b\n            font-size: 2rem;\n            margin-bottom: 0.5rem;\n        \x7d\n\n        .report-meta \x7b\n            font-size: 0.9rem;\n            opacity: 0.9;\n            margin-top: 1rem;\n            padding-top: 1rem;\n            border-top: 1px solid rgba(255, 255, 255, 0.2);\n        \x7d\n\n        .stats-grid \x7b\n            display: grid;\n            grid-template-columns: repeat(auto-fit, minmax(200px, 1fr));\n            gap: 1rem;\n            margin-bottom: 2rem;\n        \x7d\n\n        .stat-card \x7b\n            background: white;\n            padding: 1.5rem;\n            border-radius: 0.5rem;\n            box-shadow: 0 2px 4px rgba(0, 0, 0, 0.1);\n            "

def hd1p1 : String := "border-left: 4px solid #667eea;\n        \x7d\n\n        .stat-card.error \x7b\n            border-left-color: #e74c3c;\n        \x7d\n\n        .stat-card.warning \x7b\n            border-left-color: #f39c12;\n        \x7d\n\n        .stat-card.note \x7b\n            border-left-color: #3498db;\n        \x7d\n\n        .stat-label \x7b\n            font-size: 0.9rem;\n            color: #7f8c8d;\n            text-transform: uppercase;\n            letter-spacing: 0.05em;\n            font-weight: 600;\n        \x7d\n\n        .stat-value \x7b\n            font-size: 2.5rem;\n            font-weight: 700;\n            margin-top: 0.5rem;\n            color: #2c3e50;\n        \x7d\n\n        .stat-card.error .stat-value \x7b\n            color: #e74c3c;\n        \x7d\n\n        .stat-card.warning .stat-value \x7b\n            color: #f39c12;\n        \x7d\n\n        .stat-card.note .stat-value \x7b\n            color: #3498db;\n        \x7d\n\n        .section \x7b\n            margin-bottom: 2rem;\n        \x7d\n\n        .section-title \x7b\n            font-size: 1.5rem;\n            font-weight: 700;\n            margin-bottom: 1rem;\n            padding-bottom: 0.5rem;\n            border-bottom: 2px solid #667eea;\n            display: flex;\n            align-items: center;\n            gap: 0.5rem;\n        \x7d\n\n        .section-title.error \x7b\n            border-bottom-color: #e74c3c;\n        \x7d\n\n        .section-title.warning \x7b\n            border-bottom-color: #f39c12;\n        \x7d\n\n      "

def hd1p2 : String := "  .section-title.note \x7b\n            border-bottom-color: #3498db;\n        \x7d\n\n        .severity-badge \x7b\n            display: inline-block;\n            padding: 0.25rem 0.75rem;\n            border-radius: 1rem;\n            font-size: 0.75rem;\n            font-weight: 600;\n            text-transform: uppercase;\n            letter-spacing: 0.05em;\n        \x7d\n\n        .severity-badge.error \x7b\n            background: #fadbd8;\n            color: #c0392b;\n        \x7d\n\n        .severity-badge.warning \x7b\n            background: #fdebd0;\n            color: #b8860b;\n        \x7d\n\n        .severity-badge.note \x7b\n            background: #d6eaf8;\n            color: #1f618d;\n        \x7d\n\n        .result-item \x7b\n            background: white;\n            border: 1px solid #ecf0f1;\n            border-radius: 0.5rem;\n            margin-bottom: 1rem;\n            overflow: hidden;\n            transition: all 0.2s;\n            box-shadow: 0 1px 3px rgba(0, 0, 0, 0.05);\n        \x7d\n\n        .result-item:hover \x7b\n            box-shadow: 0 4px 8px rgba(0, 0, 0, 0.1);\n            border-color: #bdc3c7;\n        \x7d\n\n        .result-header \x7b\n            padding: 1.5rem;\n            border-left: 4px solid #667eea;\n            background: #f9f9f9;\n        \x7d\n\n        .result-item.error .result-header \x7b\n            border-left-color: #e74c3c;\n        \x7d\n\n        .result-item.warning .result-header \x7b\n            border-left-col"

def hd1p3 : String := "or: #f39c12;\n        \x7d\n\n        .result-item.note .result-header \x7b\n            border-left-color: #3498db;\n        \x7d\n\n        .result-message \x7b\n            font-size: 1.1rem;\n            font-weight: 600;\n            color: #2c3e50;\n            margin-bottom: 0.75rem;\n        \x7d\n\n        .result-rule \x7b\n            font-family: \x27Courier New\x27, monospace;\n            font-size: 0.85rem;\n            color: #7f8c8d;\n            word-break: break-all;\n        \x7d\n\n        .result-body \x7b\n            padding: 1.5rem;\n        \x7d\n\n        .result-section \x7b\n            margin-bottom: 1.5rem;\n        \x7d\n\n        .result-section:last-child \x7b\n            margin-bottom: 0;\n        \x7d\n\n        .result-section-title \x7b\n            font-size: 0.95rem;\n            font-weight: 600;\n            color: #2c3e50;\n            margin-bottom: 0.5rem;\n            text-transform: uppercase;\n            letter-spacing: 0.03em;\n        \x7d\n\n        .result-section-content \x7b\n            background: #f5f7fa;\n            padding: 1rem;\n            border-radius: 0.375rem;\n            border-left: 3px solid #667eea;\n        \x7d\n\n        .result-item.error .result-section-content \x7b\n            border-left-color: #e74c3c;\n        \x7d\n\n        .result-item.warning .result-section-content \x7b\n            border-left-color: #f39c12;\n        \x7d\n\n        .result-item.note .result-section-content \x7b\n            border-left-color: #3498"

def hd1p4 : String := "db;\n        \x7d\n\n        .location-info \x7b\n            display: grid;\n            grid-template-columns: repeat(auto-fit, minmax(150px, 1fr));\n            gap: 1rem;\n            margin-bottom: 0.5rem;\n        \x7d\n\n        .location-item \x7b\n            font-size: 0.9rem;\n        \x7d\n\n        .location-label \x7b\n            font-weight: 600;\n            color: #2c3e50;\n        \x7d\n\n        .location-value \x7b\n            color: #7f8c8d;\n            font-family: \x27Courier New\x27, monospace;\n        \x7d\n\n        .code-snippet \x7b\n            background: #2c3e50;\n            color: #ecf0f1;\n            padding: 1rem;\n            border-radius: 0.375rem;\n            overflow-x: auto;\n            font-family: \x27Courier New\x27, monospace;\n            font-size: 0.85rem;\n            line-height: 1.5;\n            white-space: pre-wrap;\n            word-wrap: break-word;\n        \x7d\n\n        .tags \x7b\n            display: flex;\n            flex-wrap: wrap;\n            gap: 0.5rem;\n        \x7d\n\n        .tag \x7b\n            background: #ecf0f1;\n            color: #2c3e50;\n            padding: 0.25rem 0.75rem;\n            border-radius: 0.25rem;\n            font-size: 0.8rem;\n            border: 1px solid #bdc3c7;\n        \x7d\n\n        .empty-state \x7b\n            background: #f9f9f9;\n            padding: 2rem;\n            border-radius: 0.5rem;\n            text-align: center;\n            color: #7f8c8d;\n        \x7d\n\n        .not"

def hd1p5 : String := "ification-item \x7b\n            background: #fef5e7;\n            border: 1px solid #f39c12;\n            border-left: 4px solid #f39c12;\n            padding: 1rem;\n            margin-bottom: 1rem;\n            border-radius: 0.375rem;\n            color: #7d6608;\n        \x7d\n\n        table \x7b\n            width: 100%;\n            border-collapse: collapse;\n            margin-top: 1rem;\n            background: white;\n            border-radius: 0.375rem;\n            overflow: hidden;\n            box-shadow: 0 1px 3px rgba(0, 0, 0, 0.05);\n        \x7d\n\n        th \x7b\n            background: #f5f7fa;\n            padding: 1rem;\n            text-align: left;\n            font-weight: 600;\n            color: #2c3e50;\n            border-bottom: 2px solid #ecf0f1;\n        \x7d\n\n        td \x7b\n            padding: 1rem;\n            border-bottom: 1px solid #ecf0f1;\n        \x7d\n\n        tr:last-child td \x7b\n            border-bottom: none;\n        \x7d\n\n        tr:hover \x7b\n            background: #f9f9f9;\n        \x7d\n\n        .file-name \x7b\n            font-family: \x27Courier New\x27, monospace;\n            color: #667eea;\n            word-break: break-all;\n        \x7d\n\n        footer \x7b\n            margin-top: 3rem;\n            padding-top: 2rem;\n            border-top: 1px solid #ecf0f1;\n            text-align: center;\n            color: #7f8c8d;\n            font-size: 0.9rem;\n        \x7d\n\n        @media print \x7b\n            body"

def hd1p6 : String := " \x7b\n                background: white;\n            \x7d\n            \n            .result-item \x7b\n                page-break-inside: avoid;\n            \x7d\n            \n            header \x7b\n                color: #2c3e50;\n                background: #f5f7fa;\n                border: 1px solid #bdc3c7;\n            \x7d\n        \x7d\n\n        @media (max-width: 768px) \x7b\n            .container \x7b\n                padding: 1rem;\n            \x7d\n\n            header \x7b\n                padding: 1.5rem;\n            \x7d\n\n            h1 \x7b\n                font-size: 1.5rem;\n            \x7d\n\n            .stats-grid \x7b\n                grid-template-columns: repeat(auto-fit, minmax(150px, 1fr));\n            \x7d\n\n            .location-info \x7b\n                grid-template-columns: 1fr;\n            \x7d\n        \x7d\n    </style>\n</head>\n<body>\n    <div class=\"container\">\n        <header>\n            <h1>📊 SARIF Analysis Report</h1>\n            <p>Static Analysis Results Interchange Format</p>\n            <div class=\"report-meta\">\n                <p><strong>File:</strong> "

def hd1 : String := hd1p0 ++ hd1p1 ++ hd1p2 ++ hd1p3 ++ hd1p4 ++ hd1p5 ++ hd1p6

def hd2 : String := "</p>\n                <p><strong>Generated:</strong> "

def hd3 : String := "</p>\n            </div>\n        </header>\n\n        <!-- Statistics Section -->\n        <div class=\"stats-grid\">\n            <div class=\"stat-card\">\n                <div class=\"stat-label\">Total Issues</div>\n                <div class=\"stat-value\">"

def hd4 : String := "</div>\n            </div>\n            <div class=\"stat-card error\">\n                <div class=\"stat-label\">Errors</div>\n                <div class=\"stat-value\">"

def hd5 : String := "</div>\n            </div>\n            <div class=\"stat-card warning\">\n                <div class=\"stat-label\">Warnings</div>\n                <div class=\"stat-value\">"

def hd6 : String := "</div>\n            </div>\n            <div class=\"stat-card note\">\n                <div class=\"stat-label\">Notes</div>\n                <div class=\"stat-value\">"

def hd7 : String := "</div>\n            </div>\n            <div class=\"stat-card\">\n                <div class=\"stat-label\">Affected Files</div>\n                <div class=\"stat-value\">"

def hd8 : String := "</div>\n            </div>\n            <div class=\"stat-card\">\n                <div class=\"stat-label\">Unique Rules</div>\n                <div class=\"stat-value\">"

def hd9 : String := "</div>\n            </div>\n        </div>\n"

def nh0 : String := "\n        <!-- Notifications Section -->\n        <div class=\"section\">\n            <div class=\"section-title warning\">\n                ⚠️ Build/Syntax Issues ("

def nh1 : String := ")\n            </div>\n            <div>\n"

def ni0 : String := "\n                <div class=\"notification-item\">\n                    "

def ni1 : String := "\n                </div>\n"

def ncl : String := "\n            </div>\n        </div>\n"

def ss0 : String := "\n        <!-- "

def ss1 : String := " Section -->\n        <div class=\"section\">\n            <div class=\"section-title "

def ss2 : String := "\">\n                "

def ss3 : String := " "

def ss4 : String := "s ("

def ss5 : String := ")\n            </div>\n"

def ri0 : String := "\n            <div class=\"result-item "

def ri1 : String := "\">\n                <div class=\"result-header\">\n                    <div class=\"result-message\">\n                        "

def ri2 : String := "\n                    </div>\n                    <div class=\"result-rule\">\n                        Rule: "

def ri3 : String := "\n                    </div>\n                </div>\n                <div class=\"result-body\">\n"

def lo0 : String := "\n                    <div class=\"result-section\">\n                        <div class=\"result-section-title\">📍 Location</div>\n                        <div class=\"result-section-content\">\n                            <div class=\"location-info\">\n                                <div class=\"location-item\">\n                                    <div class=\"location-label\">File:</div>\n                                    <div class=\"location-value file-name\">"

def lo1 : String := "</div>\n                                </div>\n                                <div class=\"location-item\">\n                                    <div class=\"location-label\">Line:</div>\n                                    <div class=\"location-value\">"

def lo2 : String := "</div>\n                                </div>\n                                <div class=\"location-item\">\n                                    <div class=\"location-label\">Column:</div>\n                                    <div class=\"location-value\">"

def lo3 : String := "</div>\n                                </div>\n                            </div>\n                        </div>\n                    </div>\n"

def sn0 : String := "\n                    <div class=\"result-section\">\n                        <div class=\"result-section-title\">💻 Code</div>\n                        <div class=\"code-snippet\">"

def sn1 : String := "</div>\n                    </div>\n"

def tg0 : String := "\n                    <div class=\"result-section\">\n                        <div class=\"result-section-title\">🏷️ Tags</div>\n                        <div class=\"tags\">\n"

def ta0 : String := "                            <span class=\"tag\">"

def ta1 : String := "</span>\n"

def tcl : String := "\n                        </div>\n                    </div>\n"

def rcl : String := "\n                </div>\n            </div>\n"

def scl : String := "\n        </div>\n"

def ft0 : String := "\n        <!-- File Summary -->\n        <div class=\"section\">\n            <div class=\"section-title\">\n                📁 Issues by File\n            </div>\n            <table>\n                <thead>\n                    <tr>\n                        <th>File</th>\n                        <th style=\"text-align: right;\">Count</th>\n                    </tr>\n                </thead>\n                <tbody>\n"

def fr0 : String := "\n                    <tr>\n                        <td class=\"file-name\">"

def fr1 : String := "</td>\n                        <td style=\"text-align: right;\"><strong>"

def fr2 : String := "</strong></td>\n                    </tr>\n"

def fcl : String := "\n                </tbody>\n            </table>\n        </div>\n"

def fot : String := "\n        <footer>\n            <p>Generated by SARIF to HTML Converter</p>\n        </footer>\n    </div>\n</body>\n</html>\n"

/-- The head of the report (the big f-string of lines 133-565): page
header with the escaped file name (twice) and the timestamp, then the six
statistics cards. -/
def headPieces (filename now : String) (stats : Stats) : List String :=
  [hd0, escape_html (.str filename),
   hd1p0, hd1p1, hd1p2, hd1p3, hd1p4, hd1p5, hd1p6,
   escape_html (.str filename), hd2, now,
   hd3, toString stats.total, hd4, toString stats.errors,
   hd5, toString stats.warnings, hd6, toString stats.notes,
   hd7, toString stats.files, hd8, toString stats.rules, hd9]

/-- The notifications section (lines 567-586): emitted only when
`self.notifications` is truthy; one escaped
`notif.get('message', {}).get('text', '')` per notification. -/
def notif_section_pieces (notifications : Json) : Except PyErr (List String) := do
  if notifications.truthy then do
    let n ← pyLen notifications
    let items ← pyIter notifications
    let per ← items.mapM fun notif => do
      let mo ← pyGetD notif "message" (.obj [])
      let t ← pyGetD mo "text" (.str "")
      pure [ni0, escape_html t, ni1]
    pure ([nh0, toString n, nh1] ++ per.flatten ++ [ncl])
  else pure []

/-- Python `str.upper` (the levels are plain ASCII). -/
def pyUpper (s : String) : String := ⟨s.data.map Char.toUpper⟩

/-- The icon conditional expression of line 595. -/
def levelIcon (level : String) : String :=
  if level == "error" then "❌" else if level == "warning" then "⚠️" else "ℹ️"

/-- One result entry (lines 605-673): location info is extracted first
(total, never raises), then `ruleId`, `message` and `tags` are read with
their defaults; message, rule, file, snippet and tags are escaped, the
start line/column are interpolated raw through `str`. -/
def result_item_pieces (level : String) (result : Json) :
    Except PyErr (List String) := do
  let loc := get_location_info result
  let rule_id ← pyGetD result "ruleId" (.str "unknown")
  let msgD ← pyGetD result "message" (.obj [])
  let message ← pyGetD msgD "text" (.str "")
  let propsD ← pyGetD result "properties" (.obj [])
  let tags ← pyGetD propsD "tags" (.arr [])
  let base :=
    [ri0, level, ri1, escape_html message, ri2, escape_html rule_id, ri3]
      ++ [lo0, escape_html loc.file, lo1, pyStr loc.start_line, lo2,
          pyStr loc.start_column, lo3]
  let snip := if loc.snippet.truthy then [sn0, escape_html loc.snippet, sn1] else []
  let tagPieces ←
    if tags.truthy then do
      let ts ← pyIter tags
      pure ([tg0] ++ (ts.map fun tag => [ta0, escape_html tag, ta1]).flatten ++ [tcl])
    else pure []
  pure (base ++ snip ++ tagPieces ++ [rcl])

/-- The rendered text of one result entry. -/
def render_result_item (level : String) (result : Json) : Except PyErr String :=
  (result_item_pieces level result).map String.join

/-- One severity section (lines 597-677) for a non-empty group. -/
def section_pieces_for (level : String) (group : List Json) :
    Except PyErr (List String) := do
  let items ← group.mapM (result_item_pieces level)
  pure ([ss0, pyUpper level, ss1, level, ss2, levelIcon level, ss3, pyUpper level,
         ss4, toString group.length, ss5] ++ items.flatten ++ [scl])

/-- The severity loop of lines 589-601: only the keys `error`, `warning`,
`note` are walked, in that order, each via `categorized.get(level, [])`,
and a section is emitted only when the group is non-empty. -/
def severity_sections_pieces (categorized : List (Json × List Json)) :
    Except PyErr (List String) :=
  ["error", "warning", "note"].foldlM
    (fun acc level => do
      let results_by_level := (categorized.lookup (.str level)).getD []
      if results_by_level.isEmpty then pure acc
      else do
        let sec ← section_pieces_for level results_by_level
        pure (acc ++ sec))
    []

/-- The per-file summary rows (line 697): `sorted` on the count with
`reverse=True`, i.e. the stable descending sort by count of the
insertion-ordered `by_file` items.  (Any stable sort computes the same
list; a structurally recursive one is used so that concrete reports
evaluate.) -/
def by_file_rows (m : List (Json × Nat)) : List (Json × Nat) :=
  m.insertionSort fun a b => b.2 ≤ a.2

/-- The file summary table (lines 679-709), emitted only when `by_file` is
non-empty. -/
def file_table_pieces (stats : Stats) : List String :=
  if stats.by_file.isEmpty then []
  else
    [ft0]
      ++ ((by_file_rows stats.by_file).map fun fc =>
            [fr0, escape_html fc.1, fr1, toString fc.2, fr2]).flatten
      ++ [fcl]

/-- The whole report as its ordered piece list: head, notifications,
severity sections, file table, footer. -/
def generate_html_pieces (filename now : String) (results notifications : Json) :
    Except PyErr (List String) := do
  let stats ← get_statistics results
  let categorized ← categorize_results results
  let notifSec ← notif_section_pieces notifications
  let sevSec ← severity_sections_pieces categorized
  pure (headPieces filename now stats ++ notifSec ++ sevSec
        ++ file_table_pieces stats ++ [fot])

/-- `SarifToHtmlConverter.generate_html`: the html text handed to the
output file write (an uncaught exception from the dynamic field accesses
propagates as the error case). -/
def generate_html (filename now : String) (results notifications : Json) :
    Except PyErr String :=
  (generate_html_pieces filename now results notifications).map String.join

/-- The `main` entry point: load, then generate and write.  `input` is
`none` when reading/parsing the input file fails; `writeOk` models whether
the output file write succeeds.  Returns the process exit status and the
written report text (`none` when no output file is produced).  An error
escaping `generate_html` is an uncaught exception: non-zero exit, no
complete output file. -/
def main (input : Option Json) (filename now : String) (writeOk : Bool) :
    Nat × Option String :=
  match load_sarif input with
  | (false, _, _) => (1, none)
  | (true, results, notifs) =>
    match generate_html filename now results notifs with
    | .error _ => (1, none)
    | .ok page => if writeOk then (0, some page) else (1, none)

/-! ### Substring occurrence machinery

The injection claims speak about a string occurring (or not occurring)
inside the generated report.  `containsSub p l` is a substring scan over
character lists; the lemmas below let a non-occurrence over the whole
report be established piece by piece (each piece plus each seam window),
which keeps every single evaluation small. -/

/-- Whether `p` is a prefix of `l` (character-list level). -/
def hasPre : List Char → List Char → Bool
  | [], _ => true
  | _ :: _, [] => false
  | p :: ps, c :: cs => p == c && hasPre ps cs

/-- Whether `p` occurs as a contiguous substring of `l`. -/
def containsSub (p : List Char) : List Char → Bool
  | [] => hasPre p []
  | c :: cs => hasPre p (c :: cs) || containsSub p cs

/-- Whether the string `p` occurs as a substring of `s`. -/
def strContainsSub (p s : String) : Bool := containsSub p.data s.data

theorem hasPre_iff : ∀ (p l : List Char), hasPre p l = true ↔ p <+: l
  | [], l => by simp [hasPre]
  | _ :: _, [] => by simp [hasPre]
  | p :: ps, c :: cs => by
      simp [hasPre, hasPre_iff ps cs, List.cons_prefix_cons, and_comm]

theorem containsSub_iff (p : List Char) : ∀ (l : List Char),
    containsSub p l = true ↔ p <:+: l
  | [] => by
      constructor
      · intro h
        match p, h with
        | [], _ => exact List.nil_infix
      · intro h
        rw [List.infix_nil] at h
        subst h
        rfl
  | c :: cs => by
      rw [show containsSub p (c :: cs) = (hasPre p (c :: cs) || containsSub p cs) from rfl,
        List.infix_cons_iff]
      simp [hasPre_iff p (c :: cs), containsSub_iff p cs]

/-- A pattern occurring in `a ++ b` occurs in `a`, in `b`, or straddles the
seam: a nonempty proper prefix of it is a suffix of `a` and the rest a
prefix of `b`. -/
theorem infix_append_cases {p : List Char} :
    ∀ {a b : List Char}, p <:+: a ++ b →
      p <:+: a ∨ p <:+: b ∨
        ∃ k, 0 < k ∧ k < p.length ∧ p.take k <:+ a ∧ p.drop k <+: b := by
  intro a
  induction a with
  | nil => intro b h; exact Or.inr (Or.inl (by simpa using h))
  | cons c a ih =>
    intro b h
    rw [List.cons_append, List.infix_cons_iff] at h
    rcases h with hpre | hinf
    · rw [← List.cons_append] at hpre
      rcases le_or_lt p.length (c :: a).length with hle | hlt
      · left
        have hp := List.prefix_iff_eq_take.mp hpre
        rw [List.take_append_of_le_length hle] at hp
        have h2 : p <+: c :: a := by rw [hp]; exact List.take_prefix _ _
        exact h2.isInfix
      · right; right
        have hp := List.prefix_iff_eq_take.mp hpre
        obtain ⟨t, ht⟩ := hpre
        refine ⟨(c :: a).length, by simp, hlt, ?_, ?_⟩
        · have htk : p.take (c :: a).length = c :: a := by
            rw [hp, List.take_take, Nat.min_eq_left (Nat.le_of_lt hlt), List.take_left]
          rw [htk]
        · refine ⟨t, ?_⟩
          have hd := congrArg (List.drop (c :: a).length) ht
          rwa [List.drop_append_of_le_length (Nat.le_of_lt hlt), List.drop_left] at hd
    · rcases ih hinf with h1 | h2 | ⟨k, hk0, hklt, hka, hkb⟩
      · exact Or.inl (List.infix_cons h1)
      · exact Or.inr (Or.inl h2)
      · exact Or.inr (Or.inr ⟨k, hk0, hklt, hka.trans (List.suffix_cons c a), hkb⟩)

/-- A suffix of `x` of length at most `m` is a suffix of `x`'s last `m`
characters. -/
theorem suffix_drop_window {x u : List Char} {m : Nat} (hx : u <:+ x)
    (hlen : u.length ≤ m) : u <:+ x.drop (x.length - m)
  := by
  obtain ⟨t, ht⟩ := hx
  rcases le_or_lt x.length m with hle | hlt
  · rw [Nat.sub_eq_zero_of_le hle, List.drop_zero]; exact ⟨t, ht⟩
  · have hlt' : x.length - m ≤ t.length := by
      have : x.length = t.length + u.length := by rw [← ht, List.length_append]
      omega
    refine ⟨t.drop (x.length - m), ?_⟩
    rw [← List.drop_append_of_le_length hlt', ht]

/-- A prefix of `y` of length at most `m` is a prefix of `y`'s first `m`
characters. -/
theorem prefix_take_window {y v : List Char} {m : Nat} (hy : v <+: y)
    (hlen : v.length ≤ m) : v <+: y.take m := by
  have hv := List.prefix_iff_eq_take.mp hy
  rw [List.prefix_iff_eq_take, List.take_take, Nat.min_eq_left hlen, ← hv]

/-- Gluing a suffix of `A` and a prefix of `B` yields an infix of `A ++ B`. -/
theorem infix_append_of_suffix_prefix {u v A B : List Char}
    (h1 : u <:+ A) (h2 : v <+: B) : u ++ v <:+: A ++ B := by
  obtain ⟨s, hs⟩ := h1
  obtain ⟨t, ht⟩ := h2
  exact ⟨s, t, by rw [← hs, ← ht]; simp⟩

/-- Composite non-occurrence over one seam: if the pattern occurs in
neither part nor in the seam window, it does not occur in the
concatenation. -/
theorem noOcc_append {p a b : List Char} (hp : p ≠ [])
    (ha : containsSub p a = false) (hb : containsSub p b = false)
    (hw : containsSub p
        (a.drop (a.length - (p.length - 1)) ++ b.take (p.length - 1)) = false) :
    containsSub p (a ++ b) = false := by
  by_contra hcon
  have h := (containsSub_iff p (a ++ b)).mp (Bool.not_eq_false _ |>.mp hcon)
  have hplen : 1 ≤ p.length := by
    cases p with
    | nil => exact absurd rfl hp
    | cons c cs => simp
  rcases infix_append_cases h with h1 | h2 | ⟨k, hk0, hklt, hka, hkb⟩
  · rw [(containsSub_iff p a).mpr h1] at ha; exact Bool.noConfusion ha
  · rw [(containsSub_iff p b).mpr h2] at hb; exact Bool.noConfusion hb
  · have hsfx : p.take k <:+ a.drop (a.length - (p.length - 1)) :=
      suffix_drop_window hka (by simp; omega)
    have hpfx : p.drop k <+: b.take (p.length - 1) :=
      prefix_take_window hkb (by simp; omega)
    have hglue := infix_append_of_suffix_prefix hsfx hpfx
    rw [List.take_append_drop] at hglue
    rw [(containsSub_iff p _).mpr hglue] at hw
    exact Bool.noConfusion hw

/-- Piece-by-piece non-occurrence check over a list of pieces: each piece
is scanned on its own, plus a bounded window across each seam. -/
def noOccChain (p : List Char) : List (List Char) → Bool
  | [] => true
  | [x] => !containsSub p x
  | x :: y :: rest =>
      !containsSub p x
        && !containsSub p (x.drop (x.length - (p.length - 1))
              ++ ((y :: rest).flatten.take (p.length - 1)))
        && noOccChain p (y :: rest)

theorem noOccChain_sound {p : List Char} (hp : p ≠ []) :
    ∀ pieces, noOccChain p pieces = true → containsSub p pieces.flatten = false
  | [] => by
      intro _
      cases p with
      | nil => exact absurd rfl hp
      | cons c cs => rfl
  | [x] => by
      intro h
      simp only [noOccChain, Bool.not_eq_true'] at h
      simpa using h
  | x :: y :: rest => by
      intro h
      simp only [noOccChain, Bool.and_eq_true, Bool.not_eq_true'] at h
      obtain ⟨⟨hx, hwin⟩, hrest⟩ := h
      have hb := noOccChain_sound hp (y :: rest) hrest
      rw [show (x :: y :: rest).flatten = x ++ (y :: rest).flatten from rfl]
      exact noOcc_append hp hx hb hwin

/-- Positive occurrence: a pattern occurring in one piece occurs in the
concatenation. -/
theorem containsSub_flatten_of_mem {p x : List Char} {pieces : List (List Char)}
    (hx : x ∈ pieces) (h : containsSub p x = true) :
    containsSub p pieces.flatten = true :=
  (containsSub_iff p _).mpr
    (((containsSub_iff p x).mp h).trans (List.infix_of_mem_flatten hx))

/-- The characters of `String.join` are the concatenation of the pieces'
characters. -/
theorem data_join : ∀ (l : List String) (s : String),
    (l.foldl (· ++ ·) s).data = s.data ++ (l.map String.data).flatten
  | [], s => by simp
  | x :: xs, s => by
      rw [List.foldl_cons, data_join xs (s ++ x)]
      simp

theorem string_join_data (l : List String) :
    (String.join l).data = (l.map String.data).flatten := by
  rw [String.join, data_join l "", show ("" : String).data = [] from rfl,
    List.nil_append]

/-! ### The escaping primitive neutralizes markup -/

theorem mem_escChar_not_markup {c d : Char} (h : d ∈ (escChar c).data) :
    d ≠ '<' ∧ d ≠ '>' := by
  unfold escChar at h
  split at h
  · rw [show ("&amp;" : String).data = ['&', 'a', 'm', 'p', ';'] from rfl] at h
    simp only [List.mem_cons, List.not_mem_nil, or_false] at h
    rcases h with rfl | rfl | rfl | rfl | rfl <;> exact ⟨by decide, by decide⟩
  · split at h
    · rw [show ("&lt;" : String).data = ['&', 'l', 't', ';'] from rfl] at h
      simp only [List.mem_cons, List.not_mem_nil, or_false] at h
      rcases h with rfl | rfl | rfl | rfl <;> exact ⟨by decide, by decide⟩
    · split at h
      · rw [show ("&gt;" : String).data = ['&', 'g', 't', ';'] from rfl] at h
        simp only [List.mem_cons, List.not_mem_nil, or_false] at h
        rcases h with rfl | rfl | rfl | rfl <;> exact ⟨by decide, by decide⟩
      · split at h
        · rw [show ("&quot;" : String).data = ['&', 'q', 'u', 'o', 't', ';'] from rfl] at h
          simp only [List.mem_cons, List.not_mem_nil, or_false] at h
          rcases h with rfl | rfl | rfl | rfl | rfl | rfl <;> exact ⟨by decide, by decide⟩
        · split at h
          · rw [show ("&#x27;" : String).data = ['&', '#', 'x', '2', '7', ';'] from rfl] at h
            simp only [List.mem_cons, List.not_mem_nil, or_false] at h
            rcases h with rfl | rfl | rfl | rfl | rfl | rfl <;> exact ⟨by decide, by decide⟩
          · rw [show (String.singleton c).data = [c] from rfl] at h
            simp only [List.mem_cons, List.not_mem_nil, or_false] at h
            subst h
            exact ⟨by assumption, by assumption⟩

theorem mem_htmlEscapeList_not_markup :
    ∀ (s : List Char) {d : Char}, d ∈ htmlEscapeList s → d ≠ '<' ∧ d ≠ '>'
  | [], _, h => absurd h (List.not_mem_nil _)
  | c :: cs, d, h => by
      rw [show htmlEscapeList (c :: cs) = (escChar c).data ++ htmlEscapeList cs from rfl,
        List.mem_append] at h
      rcases h with h | h
      · exact mem_escChar_not_markup h
      · exact mem_htmlEscapeList_not_markup cs h

/-- No character of any `escape_html` output is a raw `<` or `>`: escaped
text can never open or close an HTML tag. -/
theorem escape_html_no_markup (j : Json) {d : Char}
    (h : d ∈ (escape_html j).data) : d ≠ '<' ∧ d ≠ '>' := by
  unfold escape_html at h
  split at h
  · exact mem_htmlEscapeList_not_markup _ h
  · exact absurd h (List.not_mem_nil _)

/-! ### Helper notions for the statistics and categorizer theorems -/

/-- The count stored under `k` in a counting map (0 when absent). -/
def lookupCount (m : List (Json × Nat)) (k : Json) : Nat :=
  (m.lookup k).getD 0

/-- The keys of `us` not already in `ks`, in order of first occurrence
(the order in which a dict accumulates fresh keys). -/
def newKeys (ks : List Json) : List Json → List Json
  | [] => []
  | u :: rest => if u ∈ ks then newKeys ks rest else u :: newKeys (ks ++ [u]) rest

theorem exceptBind_ok {α β : Type} {e : Except PyErr α} {f : α → Except PyErr β} {b : β}
    (h : (e >>= f) = .ok b) : ∃ a, e = .ok a ∧ f a = .ok b := by
  cases e with
  | error err => simp [Bind.bind, Except.bind] at h
  | ok a => exact ⟨a, rfl, by simpa [Bind.bind, Except.bind] using h⟩

theorem mapM_ok_cons {α : Type} {f : Json → Except PyErr α} {a : Json} {l : List Json}
    {out : List α} (h : (a :: l).mapM f = .ok out) :
    ∃ x xs, f a = .ok x ∧ l.mapM f = .ok xs ∧ out = x :: xs := by
  rw [List.mapM_cons] at h
  obtain ⟨x, hx, h2⟩ := exceptBind_ok h
  obtain ⟨xs, hxs, h3⟩ := exceptBind_ok h2
  refine ⟨x, xs, hx, hxs, ?_⟩
  cases h3
  rfl

theorem mapM_ok_nil {α : Type} {f : Json → Except PyErr α} {out : List α}
    (h : ([] : List Json).mapM f = .ok out) : out = [] := by
  rw [List.mapM_nil] at h
  cases h
  rfl

theorem bump_lookupCount (m : List (Json × Nat)) (k v : Json) :
    lookupCount (bump m k) v = lookupCount m v + (if k = v then 1 else 0) := by
  induction m with
  | nil =>
    by_cases hv : k = v
    · subst hv; simp [bump, lookupCount, List.lookup]
    · simp [bump, lookupCount, List.lookup, beq_false_of_ne (Ne.symm hv), hv]
  | cons p t ih =>
    obtain ⟨a, n⟩ := p
    by_cases hak : a = k
    · subst hak
      by_cases hv : a = v
      · subst hv; simp [bump, lookupCount, List.lookup]
      · simp [bump, lookupCount, List.lookup, beq_false_of_ne (Ne.symm hv), hv]
    · have h1 : (a == k) = false := beq_false_of_ne hak
      by_cases hv : v = a
      · subst hv
        have : ¬ k = v := fun hh => hak hh.symm
        simp [bump, lookupCount, List.lookup, h1, this]
      · have h2 : (v == a) = false := beq_false_of_ne hv
        simpa [bump, lookupCount, List.lookup, h1, h2] using ih

theorem bump_keys (m : List (Json × Nat)) (k : Json) :
    (bump m k).map Prod.fst =
      if k ∈ m.map Prod.fst then m.map Prod.fst else m.map Prod.fst ++ [k] := by
  induction m with
  | nil => simp [bump]
  | cons p t ih =>
    obtain ⟨a, n⟩ := p
    by_cases hak : a = k
    · subst hak; simp [bump]
    · have h1 : (a == k) = false := beq_false_of_ne hak
      by_cases hk : k ∈ t.map Prod.fst
      · simp [bump, h1, hk, ih, Ne.symm hak]
      · simp [bump, h1, hk, ih, Ne.symm hak]

/-- Projection lemmas of one aggregation step. -/
theorem aggregate_step_errors (s : StatsAcc) (i : ResultInfo) :
    (aggregate_step s i).errors =
      s.errors + (if i.level == .str "error" then 1 else 0) := by
  rcases i with ⟨lvl, uri, rule⟩
  dsimp only [aggregate_step]
  cases uri <;> cases rule <;> split_ifs <;> simp_all

theorem aggregate_step_warnings (s : StatsAcc) (i : ResultInfo) :
    (aggregate_step s i).warnings =
      s.warnings +
        (if ¬ i.level == .str "error" ∧ i.level == .str "warning" then 1 else 0) := by
  rcases i with ⟨lvl, uri, rule⟩
  dsimp only [aggregate_step]
  cases uri <;> cases rule <;> split_ifs <;> simp_all

theorem aggregate_step_notes (s : StatsAcc) (i : ResultInfo) :
    (aggregate_step s i).notes =
      s.notes +
        (if ¬ i.level == .str "error" ∧ ¬ i.level == .str "warning" ∧
            i.level == .str "note" then 1 else 0) := by
  rcases i with ⟨lvl, uri, rule⟩
  dsimp only [aggregate_step]
  cases uri <;> cases rule <;> split_ifs <;> simp_all

theorem aggregate_step_by_level (s : StatsAcc) (i : ResultInfo) :
    (aggregate_step s i).by_level = bump s.by_level i.level := by
  rcases i with ⟨lvl, uri, rule⟩
  dsimp only [aggregate_step]
  cases uri <;> cases rule <;> split_ifs <;> simp_all

theorem aggregate_step_by_file (s : StatsAcc) (i : ResultInfo) :
    (aggregate_step s i).by_file =
      (match i.uri with
        | some u => bump s.by_file u
        | none => s.by_file) := by
  rcases i with ⟨lvl, uri, rule⟩
  dsimp only [aggregate_step]
  cases uri <;> cases rule <;> split_ifs <;> simp_all

/-- Folded projections over a whole info list. -/
theorem foldl_agg_errors : ∀ (l : List ResultInfo) (s : StatsAcc),
    (l.foldl aggregate_step s).errors =
      s.errors + l.countP (fun i => i.level == .str "error")
  | [], s => by simp
  | i :: l, s => by
      rw [List.foldl_cons, foldl_agg_errors l _, aggregate_step_errors,
        List.countP_cons]
      omega

theorem foldl_agg_warnings : ∀ (l : List ResultInfo) (s : StatsAcc),
    (l.foldl aggregate_step s).warnings =
      s.warnings +
        l.countP (fun i => !(i.level == .str "error") && i.level == .str "warning")
  | [], s => by simp
  | i :: l, s => by
      rw [List.foldl_cons, foldl_agg_warnings l _, aggregate_step_warnings,
        List.countP_cons]
      by_cases h1 : i.level == .str "error" <;>
        by_cases h2 : i.level == .str "warning" <;> simp [h1, h2] <;> omega

theorem foldl_agg_notes : ∀ (l : List ResultInfo) (s : StatsAcc),
    (l.foldl aggregate_step s).notes =
      s.notes +
        l.countP (fun i => !(i.level == .str "error") && !(i.level == .str "warning")
          && i.level == .str "note")
  | [], s => by simp
  | i :: l, s => by
      rw [List.foldl_cons, foldl_agg_notes l _, aggregate_step_notes,
        List.countP_cons]
      by_cases h1 : i.level == .str "error" <;>
        by_cases h2 : i.level == .str "warning" <;>
        by_cases h3 : i.level == .str "note" <;> simp [h1, h2, h3] <;> omega

theorem foldl_agg_by_level : ∀ (l : List ResultInfo) (s : StatsAcc) (v : Json),
    lookupCount (l.foldl aggregate_step s).by_level v =
      lookupCount s.by_level v + l.countP (fun i => i.level == v)
  | [], s, v => by simp
  | i :: l, s, v => by
      rw [List.foldl_cons, foldl_agg_by_level l _ v, aggregate_step_by_level,
        bump_lookupCount, List.countP_cons]
      by_cases h : i.level = v
      · simp [h]; omega
      · simp [h, beq_false_of_ne h]

theorem foldl_agg_by_file_keys : ∀ (l : List ResultInfo) (s : StatsAcc),
    (l.foldl aggregate_step s).by_file.map Prod.fst =
      s.by_file.map Prod.fst
        ++ newKeys (s.by_file.map Prod.fst) (l.filterMap ResultInfo.uri)
  | [], s => by simp [newKeys]
  | i :: l, s => by
      rw [List.foldl_cons, foldl_agg_by_file_keys l _]
      cases hu : i.uri with
      | none =>
        rw [show (aggregate_step s i).by_file = s.by_file from by
          rw [aggregate_step_by_file, hu]]
        simp [List.filterMap_cons, hu]
      | some u =>
        rw [show (aggregate_step s i).by_file = bump s.by_file u from by
          rw [aggregate_step_by_file, hu]]
        rw [List.filterMap_cons, hu]
        rw [bump_keys]
        by_cases hk : u ∈ s.by_file.map Prod.fst
        · simp only [hk, if_true]
          rw [show newKeys (List.map Prod.fst s.by_file) (u :: l.filterMap ResultInfo.uri)
              = newKeys (List.map Prod.fst s.by_file) (l.filterMap ResultInfo.uri) from by
            rw [newKeys]; simp [hk]]
        · simp only [hk, if_false]
          rw [show newKeys (List.map Prod.fst s.by_file) (u :: l.filterMap ResultInfo.uri)
              = u :: newKeys (List.map Prod.fst s.by_file ++ [u])
                  (l.filterMap ResultInfo.uri) from by
            rw [newKeys]; simp [hk]]
          simp

/-- `get_statistics` on a result list, under the hypothesis that every
per-result read succeeded. -/
theorem get_statistics_arr {results : List Json} {infos : List ResultInfo}
    (h : results.mapM resultInfo = .ok infos) :
    get_statistics (.arr results) = .ok
      { total := results.length,
        errors := (infos.foldl aggregate_step {}).errors,
        warnings := (infos.foldl aggregate_step {}).warnings,
        notes := (infos.foldl aggregate_step {}).notes,
        files := (infos.foldl aggregate_step {}).filesSet.length,
        rules := (infos.foldl aggregate_step {}).rulesSet.length,
        by_level := (infos.foldl aggregate_step {}).by_level,
        by_file := (infos.foldl aggregate_step {}).by_file } := by
  rw [get_statistics]
  rw [show pyLen (.arr results) = .ok results.length from rfl]
  rw [show pyIter (.arr results) = .ok results from rfl]
  simp only [Bind.bind, Except.bind, h]
  rfl

/-! ### Categorizer lemmas -/

theorem appendAt_keys : ∀ (cat : List (Json × List Json)) (lvl r : Json),
    (appendAt cat lvl r).map Prod.fst = cat.map Prod.fst
  | [], _, _ => rfl
  | (a, g) :: t, lvl, r => by
      by_cases h : a = lvl
      · subst h; simp [appendAt]
      · simp [appendAt, beq_false_of_ne h, appendAt_keys t lvl r]

theorem appendAt_lookup : ∀ (cat : List (Json × List Json)) (lvl r k : Json),
    (cat.lookup lvl).isSome = true →
    ((appendAt cat lvl r).lookup k).getD []
      = ((cat.lookup k).getD []) ++ (if lvl = k then [r] else [])
  | [], lvl, r, k => by simp [List.lookup]
  | (a, g) :: t, lvl, r, k => by
      intro hp
      by_cases hal : a = lvl
      · subst hal
        by_cases hk : k = a
        · subst hk; simp [appendAt, List.lookup]
        · have hak : ¬ a = k := fun hh => hk hh.symm
          simp [appendAt, List.lookup, beq_false_of_ne hk, hak]
      · have h1 : (a == lvl) = false := beq_false_of_ne hal
        have h1' : (lvl == a) = false := beq_false_of_ne fun hh => hal hh.symm
        by_cases hk : k = a
        · subst hk
          have : ¬ lvl = k := fun h => hal (Eq.symm h)
          simp [appendAt, List.lookup, h1, this]
        · have h2 : (k == a) = false := beq_false_of_ne hk
          have hp' : (t.lookup lvl).isSome = true := by
            simpa [List.lookup, h1'] using hp
          simpa [appendAt, List.lookup, h1, h2] using appendAt_lookup t lvl r k hp'

theorem lookup_append_new : ∀ (cat : List (Json × List Json)) (lvl r k : Json),
    cat.lookup lvl = none →
    ((cat ++ [(lvl, [r])]).lookup k).getD []
      = ((cat.lookup k).getD []) ++ (if lvl = k then [r] else [])
  | [], lvl, r, k => by
      intro _
      by_cases hk : lvl = k
      · subst hk; simp [List.lookup]
      · simp [List.lookup, beq_false_of_ne (Ne.symm hk), hk]
  | (a, g) :: t, lvl, r, k => by
      intro hn
      have ha : (lvl == a) = false := by
        by_contra hcon
        have : lvl = a := by
          have := Bool.not_eq_false _ |>.mp hcon
          exact eq_of_beq this
        subst this
        simp [List.lookup] at hn
      have hn' : t.lookup lvl = none := by
        simpa [List.lookup, ha] using hn
      by_cases hk : k = a
      · subst hk
        have : ¬ lvl = k := fun h => by rw [h] at ha; simp at ha
        simp [List.lookup, this]
      · have h2 : (k == a) = false := beq_false_of_ne hk
        simpa [List.lookup, h2] using lookup_append_new t lvl r k hn'

theorem catAppend_keys (cat : List (Json × List Json)) (lvl r : Json) :
    (catAppend cat lvl r).map Prod.fst =
      if lvl ∈ cat.map Prod.fst then cat.map Prod.fst
      else cat.map Prod.fst ++ [lvl] := by
  by_cases hp : (cat.lookup lvl).isSome = true
  · have hmem : lvl ∈ cat.map Prod.fst := by
      obtain ⟨p, hpmem, hpeq⟩ := List.lookup_isSome_iff.mp hp
      exact List.mem_map.mpr ⟨p, hpmem, (eq_of_beq hpeq).symm⟩
    simp [catAppend, hp, hmem, appendAt_keys]
  · have hnone : cat.lookup lvl = none := by
      cases h : cat.lookup lvl with
      | none => rfl
      | some v => rw [h] at hp; simp at hp
    have hmem : lvl ∉ cat.map Prod.fst := by
      intro hmem
      obtain ⟨p, hpmem, hpeq⟩ := List.mem_map.mp hmem
      exact hp (List.lookup_isSome_iff.mpr ⟨p, hpmem, by rw [hpeq]; exact LawfulBEq.rfl⟩)
    simp [catAppend, hnone, hmem]

theorem catAppend_lookup (cat : List (Json × List Json)) (lvl r k : Json) :
    ((catAppend cat lvl r).lookup k).getD []
      = ((cat.lookup k).getD []) ++ (if lvl = k then [r] else []) := by
  by_cases hp : (cat.lookup lvl).isSome = true
  · simp only [catAppend, hp, if_true]
    exact appendAt_lookup cat lvl r k hp
  · have hnone : cat.lookup lvl = none := by
      cases h : cat.lookup lvl with
      | none => rfl
      | some v => rw [h] at hp; simp at hp
    simp only [catAppend, hnone, Option.isSome_none, Bool.false_eq_true, if_false]
    exact lookup_append_new cat lvl r k hnone

theorem categorize_step_of_level {r lvl : Json} (cat : List (Json × List Json))
    (h : levelOfE r = .ok lvl) :
    categorize_step cat r = .ok (catAppend cat lvl r) := by
  rw [levelOfE] at h
  obtain ⟨l0, hl0, h2⟩ := exceptBind_ok h
  obtain ⟨u, hu, h3⟩ := exceptBind_ok h2
  cases h3
  rw [categorize_step, hl0]
  simp only [Bind.bind, Except.bind, hu]
  rfl

/-- The categorizer fold, characterised over any starting table: it
terminates successfully exactly when every level read succeeds, the keys
grow by the fresh levels in first-appearance order, and every group is the
in-order filter of the processed results by their level. -/
theorem categorize_foldlM :
    ∀ (results levels : List Json) (cat0 : List (Json × List Json)),
    results.mapM levelOfE = .ok levels →
    ∃ cat, results.foldlM categorize_step cat0 = .ok cat ∧
      cat.map Prod.fst = cat0.map Prod.fst ++ newKeys (cat0.map Prod.fst) levels ∧
      ∀ k, (cat.lookup k).getD []
        = ((cat0.lookup k).getD [])
          ++ ((results.zip levels).filter (fun p => p.2 == k)).map Prod.fst
  | [], levels, cat0 => by
      intro h
      have := mapM_ok_nil h
      subst this
      exact ⟨cat0, rfl, by simp [newKeys], by simp⟩
  | r :: results, levels, cat0 => by
      intro h
      obtain ⟨lvl, lvls, hlvl, hrest, rfl⟩ := mapM_ok_cons h
      obtain ⟨cat, hcat, hkeys, hgroups⟩ :=
        categorize_foldlM results lvls (catAppend cat0 lvl r) hrest
      refine ⟨cat, ?_, ?_, ?_⟩
      · rw [List.foldlM_cons, categorize_step_of_level cat0 hlvl]
        simpa [Bind.bind, Except.bind] using hcat
      · rw [hkeys, catAppend_keys]
        by_cases hmem : lvl ∈ cat0.map Prod.fst
        · rw [if_pos hmem,
            show newKeys (cat0.map Prod.fst) (lvl :: lvls)
              = newKeys (cat0.map Prod.fst) lvls from by rw [newKeys]; simp [hmem]]
        · rw [if_neg hmem,
            show newKeys (cat0.map Prod.fst) (lvl :: lvls)
              = lvl :: newKeys (cat0.map Prod.fst ++ [lvl]) lvls from by
                rw [newKeys]; simp [hmem]]
          simp
      · intro k
        rw [hgroups k, catAppend_lookup]
        rw [List.zip_cons_cons, List.filter_cons]
        by_cases hk : lvl = k
        · subst hk
          simp
        · have : ((r, lvl).2 == k) = false := beq_false_of_ne hk
          simp [this, hk]

/-! ### Claims about the statistics aggregator -/

theorem mapM_ok_length {α : Type} {f : Json → Except PyErr α} :
    ∀ {l : List Json} {out : List α}, l.mapM f = .ok out → out.length = l.length
  | [], out, h => by rw [mapM_ok_nil h]; rfl
  | a :: l, out, h => by
      obtain ⟨x, xs, _, hxs, rfl⟩ := mapM_ok_cons h
      simp [mapM_ok_length hxs]

theorem four_way_partition (l : List ResultInfo) :
    l.countP (fun i => i.level == .str "error")
      + l.countP (fun i => !(i.level == .str "error") && i.level == .str "warning")
      + l.countP (fun i => !(i.level == .str "error") && !(i.level == .str "warning")
          && i.level == .str "note")
      + l.countP (fun i => !(i.level == .str "error") && !(i.level == .str "warning")
          && !(i.level == .str "note"))
      = l.length := by
  induction l with
  | nil => rfl
  | cons i l ih =>
    simp only [List.countP_cons, List.length_cons]
    rcases Bool.eq_false_or_eq_true (i.level == .str "error") with h1 | h1 <;>
      rcases Bool.eq_false_or_eq_true (i.level == .str "warning") with h2 | h2 <;>
      rcases Bool.eq_false_or_eq_true (i.level == .str "note") with h3 | h3 <;>
      simp only [h1, h2, h3, Bool.not_true, Bool.not_false, Bool.true_and,
        Bool.false_and, Bool.and_true, Bool.and_false, Bool.and_self,
        Bool.false_eq_true, eq_self_iff_true, if_true, if_false] <;>
      omega

/-- C2: for every successfully aggregated finding sequence, the three
severity counters plus the other-level count sum to the number of
findings, and `total` is the number of findings.  The hypotheses say that
every per-result read of the single pass succeeded (`infos` are the fields
the pass reads, with the missing-level default already applied). -/
theorem C2_statistics_partition (results : List Json) (infos : List ResultInfo)
    (stats : Stats)
    (hinfos : results.mapM resultInfo = .ok infos)
    (hstats : get_statistics (.arr results) = .ok stats) :
    stats.errors + stats.warnings + stats.notes
        + infos.countP (fun i => !(i.level == .str "error")
            && !(i.level == .str "warning") && !(i.level == .str "note"))
      = results.length
    ∧ stats.total = results.length := by
  rw [get_statistics_arr hinfos] at hstats
  cases hstats
  refine ⟨?_, rfl⟩
  show (List.foldl aggregate_step {} infos).errors
      + (List.foldl aggregate_step {} infos).warnings
      + (List.foldl aggregate_step {} infos).notes + _ = _
  rw [foldl_agg_errors, foldl_agg_warnings, foldl_agg_notes,
    show ({} : StatsAcc).errors = 0 from rfl,
    show ({} : StatsAcc).warnings = 0 from rfl,
    show ({} : StatsAcc).notes = 0 from rfl,
    ← mapM_ok_length hinfos]
  have := four_way_partition infos
  omega

def demo2Results : List Json :=
  [.obj [("level", .str "error")], .obj [], .obj [("level", .str "info")]]

def demo2Infos : List ResultInfo :=
  ((demo2Results.mapM resultInfo).toOption.getD [])

def demo2Stats : Stats :=
  ((get_statistics (.arr demo2Results)).toOption.getD default)

theorem C2_statistics_partition_witness :
    demo2Stats.errors + demo2Stats.warnings + demo2Stats.notes
        + demo2Infos.countP (fun i => !(i.level == .str "error")
            && !(i.level == .str "warning") && !(i.level == .str "note"))
      = 3
    ∧ demo2Stats.total = 3 :=
  C2_statistics_partition demo2Results demo2Infos demo2Stats (by rfl) (by rfl)

theorem countP_warning_simplify (l : List ResultInfo) :
    l.countP (fun i => !(i.level == .str "error") && i.level == .str "warning")
      = l.countP (fun i => i.level == .str "warning") := by
  induction l with
  | nil => rfl
  | cons i l ih =>
    rw [List.countP_cons, List.countP_cons, ih]
    by_cases h : i.level == .str "warning"
    · have hw : i.level = .str "warning" := eq_of_beq h
      rw [hw]
      rfl
    · simp [h]

/-- C3 (amended): the `warnings` counter counts exactly the findings whose
(defaulted) level is the string `warning` — i.e. level `warning` or level
absent — while a finding with an unrecognized level string is counted in
none of the three counters; the raw (defaulted) level is recorded verbatim
in the `by_level` map. -/
theorem C3_warnings_amended (results : List Json) (infos : List ResultInfo)
    (stats : Stats)
    (hinfos : results.mapM resultInfo = .ok infos)
    (hstats : get_statistics (.arr results) = .ok stats) :
    stats.warnings = infos.countP (fun i => i.level == .str "warning")
    ∧ (∀ v : Json, lookupCount stats.by_level v
        = infos.countP (fun i => i.level == v)) := by
  rw [get_statistics_arr hinfos] at hstats
  cases hstats
  constructor
  · show (List.foldl aggregate_step {} infos).warnings = _
    rw [foldl_agg_warnings, show ({} : StatsAcc).warnings = 0 from rfl,
      countP_warning_simplify, Nat.zero_add]
  · intro v
    show lookupCount (List.foldl aggregate_step {} infos).by_level v = _
    rw [foldl_agg_by_level,
      show lookupCount ({} : StatsAcc).by_level v = 0 from rfl, Nat.zero_add]

/-- A single finding with the unrecognized level string `info`. -/
def levelInfoResult : Json := .obj [("level", .str "info")]

/-- Modelled from the spec's words, for comparison with the code: the
claimed top-level warnings tally, counting every finding whose level is
`warning`, absent, or an unrecognized string (i.e. whose defaulted level is
any string other than `error`/`note`). -/
def claimedWarningCount (results : List Json) : Except PyErr Nat := do
  let infos ← results.mapM resultInfo
  pure (infos.countP fun i =>
    match i.level with
    | .str s => !(s == "error") && !(s == "note")
    | _ => false)

/-- C3 counterexample: on one finding of level `info` the code's warnings
counter is 0, while the claimed tally (unrecognized level counted as a
warning) is 1. -/
theorem C3_counterexample :
    (get_statistics (.arr [levelInfoResult])).map Stats.warnings = .ok 0
    ∧ claimedWarningCount [levelInfoResult] = .ok 1 := ⟨rfl, rfl⟩

theorem C3_warnings_amended_witness :
    demo2Stats.warnings
      = demo2Infos.countP (fun i => i.level == .str "warning")
    ∧ lookupCount demo2Stats.by_level (.str "info")
      = demo2Infos.countP (fun i => i.level == .str "info") :=
  ⟨(C3_warnings_amended demo2Results demo2Infos demo2Stats (by rfl) (by rfl)).1,
    (C3_warnings_amended demo2Results demo2Infos demo2Stats (by rfl) (by rfl)).2
      (.str "info")⟩

/-! ### Claim about the categorizer -/

theorem lookup_getD_nil_of_all_nil :
    ∀ (l : List (Json × List Json)), (∀ p ∈ l, p.2 = ([] : List Json)) →
      ∀ k : Json, ((l.lookup k).getD []) = []
  | [], _, k => rfl
  | (a, g) :: t, h, k => by
      by_cases hk : k = a
      · subst hk
        have : g = [] := h (k, g) (List.mem_cons_self _ _)
        simp [List.lookup, this]
      · have h2 : (k == a) = false := beq_false_of_ne hk
        simpa [List.lookup, h2] using
          lookup_getD_nil_of_all_nil t (fun p hp => h p (List.mem_cons_of_mem _ hp)) k

/-- C4: the categorizer is a stable partition by the (defaulted) level:
its keys are the three seeded levels followed by the fresh level values in
first-appearance order, and the group under any key `k` is exactly the
subsequence of results whose level is `k`, in original order (so each
finding lands in exactly one group, and an unrecognized level string gets
its own group keyed by that literal value). -/
theorem C4_categorizer_stable_partition (results levels : List Json)
    (cat : List (Json × List Json))
    (hlevels : results.mapM levelOfE = .ok levels)
    (hcat : categorize_results (.arr results) = .ok cat) :
    cat.map Prod.fst
        = [.str "error", .str "warning", .str "note"]
          ++ newKeys [.str "error", .str "warning", .str "note"] levels
    ∧ ∀ k : Json, (cat.lookup k).getD []
        = ((results.zip levels).filter (fun p => p.2 == k)).map Prod.fst := by
  obtain ⟨cat', hfold, hkeys, hgroups⟩ :=
    categorize_foldlM results levels
      [(.str "error", []), (.str "warning", []), (.str "note", [])] hlevels
  rw [categorize_results,
    show pyIter (.arr results) = .ok results from rfl] at hcat
  simp only [Bind.bind, Except.bind, hfold] at hcat
  cases hcat
  constructor
  · exact hkeys
  · intro k
    rw [hgroups k,
      lookup_getD_nil_of_all_nil _ (by intro p hp; fin_cases hp <;> rfl) k,
      List.nil_append]

def demo4Results : List Json := [.obj [("level", .str "error")], levelInfoResult]

def demo4Cat : List (Json × List Json) :=
  ((categorize_results (.arr demo4Results)).toOption.getD [])

theorem C4_categorizer_stable_partition_witness :
    demo4Cat.map Prod.fst
        = [.str "error", .str "warning", .str "note"]
          ++ newKeys [.str "error", .str "warning", .str "note"]
              [.str "error", .str "info"]
    ∧ (demo4Cat.lookup (.str "info")).getD []
        = ((demo4Results.zip ([.str "error", .str "info"] : List Json)).filter
            (fun p => p.2 == Json.str "info")).map Prod.fst :=
  ⟨(C4_categorizer_stable_partition demo4Results [.str "error", .str "info"]
      demo4Cat (by rfl) (by rfl)).1,
    (C4_categorizer_stable_partition demo4Results [.str "error", .str "info"]
      demo4Cat (by rfl) (by rfl)).2 (.str "info")⟩

/-! ### Claim about the per-file summary table order -/

/-- C6: the rows of the per-file table (`sorted(stats['by_file'].items(),
key=count, reverse=True)`, a stable sort) are a permutation of the
`by_file` items, in weakly decreasing count order, any two items of
`by_file` with the second's count not larger stay in their original
relative order (in particular ties keep first-seen order), and the
`by_file` items themselves are keyed in order of first appearance of each
file URI in the finding sequence. -/
theorem C6_file_table_sorted (results : List Json) (infos : List ResultInfo)
    (stats : Stats)
    (hinfos : results.mapM resultInfo = .ok infos)
    (hstats : get_statistics (.arr results) = .ok stats) :
    (by_file_rows stats.by_file).Perm stats.by_file
    ∧ (by_file_rows stats.by_file).Pairwise (fun a b => b.2 ≤ a.2)
    ∧ (∀ x y : Json × Nat, List.Sublist [x, y] stats.by_file → y.2 ≤ x.2 →
        List.Sublist [x, y] (by_file_rows stats.by_file))
    ∧ stats.by_file.map Prod.fst = newKeys [] (infos.filterMap ResultInfo.uri) := by
  haveI htot : IsTotal (Json × Nat) (fun a b => b.2 ≤ a.2) :=
    ⟨fun a b => Nat.le_total b.2 a.2⟩
  haveI htrans : IsTrans (Json × Nat) (fun a b => b.2 ≤ a.2) :=
    ⟨fun _ _ _ hab hbc => Nat.le_trans hbc hab⟩
  refine ⟨?_, ?_, ?_, ?_⟩
  · exact List.perm_insertionSort _ stats.by_file
  · exact List.sorted_insertionSort _ stats.by_file
  · intro x y hsub hle
    exact List.pair_sublist_insertionSort hle hsub
  · rw [get_statistics_arr hinfos] at hstats
    cases hstats
    show (List.foldl aggregate_step {} infos).by_file.map Prod.fst = _
    rw [foldl_agg_by_file_keys,
      show ({} : StatsAcc).by_file = [] from rfl]
    rfl

def uriResult (u : String) : Json :=
  .obj [("locations", .arr [.obj [("physicalLocation",
    .obj [("artifactLocation", .obj [("uri", .str u)])])]])]

def demo6Results : List Json :=
  [uriResult "a.c", uriResult "b.c", uriResult "a.c", uriResult "b.c"]

def demo6Infos : List ResultInfo :=
  ((demo6Results.mapM resultInfo).toOption.getD [])

def demo6Stats : Stats :=
  ((get_statistics (.arr demo6Results)).toOption.getD default)

theorem C6_file_table_sorted_witness :
    (by_file_rows demo6Stats.by_file).Perm demo6Stats.by_file
    ∧ demo6Stats.by_file.map Prod.fst
        = newKeys [] (demo6Infos.filterMap ResultInfo.uri) :=
  ⟨(C6_file_table_sorted demo6Results demo6Infos demo6Stats (by rfl) (by rfl)).1,
    (C6_file_table_sorted demo6Results demo6Infos demo6Stats
      (by rfl) (by rfl)).2.2.2⟩

/-! ### Claim about missing-field tolerance -/

/-- The piece list of one rendered result entry when every optional field
is missing: level `warning`, empty message, rule `unknown`, file `unknown`,
`?` position fields, no snippet, no tags. -/
def defaultItemPieces : List String :=
  [ri0, "warning", ri1, "", ri2, "unknown", ri3,
   lo0, "unknown", lo1, "?", lo2, "?", lo3, rcl]

/-- C7: location extraction is total — whenever any nested read of the raw
location data fails, the bare `except` yields the all-default record — and
a finding with none of `level`/`ruleId`/`locations`/`message`/`properties`
is categorized under `warning`, reads rule `unknown`, extracts the default
location (file `unknown`, all four position fields `?`, empty snippet),
and renders to the default entry without raising. -/
theorem C7_malformed_finding_defaults :
    (∀ (r : Json) (e : PyErr), get_location_info_core r = .error e →
        get_location_info r = locDefault)
    ∧ (∀ fs : List (String × Json),
        fs.lookup "level" = none → fs.lookup "ruleId" = none →
        fs.lookup "locations" = none → fs.lookup "message" = none →
        fs.lookup "properties" = none →
        levelOfE (.obj fs) = .ok (.str "warning")
        ∧ categorize_results (.arr [.obj fs])
            = .ok [(.str "error", []), (.str "warning", [.obj fs]), (.str "note", [])]
        ∧ pyGetD (.obj fs) "ruleId" (.str "unknown") = .ok (.str "unknown")
        ∧ get_location_info (.obj fs) = locDefault
        ∧ result_item_pieces "warning" (.obj fs) = .ok defaultItemPieces) := by
  constructor
  · intro r e h
    rw [get_location_info, h]
  · intro fs h1 h2 h3 h4 h5
    have hloc : get_location_info (.obj fs) = locDefault := by
      simp [get_location_info, get_location_info_core, pyGetD, h3, pyIndex,
        Bind.bind, Except.bind, Pure.pure, Except.pure, List.lookup, locDefault]
    refine ⟨?_, ?_, ?_, hloc, ?_⟩
    · simp [levelOfE, pyGetD, h1, hashGuard, Bind.bind, Except.bind,
        Pure.pure, Except.pure]
    · simp [categorize_results, pyIter, categorize_step, pyGetD, h1, hashGuard,
        catAppend, appendAt, List.lookup, Bind.bind, Except.bind,
        Pure.pure, Except.pure,
        show (Json.str "warning" == Json.str "error") = false from rfl,
        show (Json.str "warning" == Json.str "warning") = true from rfl]
    · simp [pyGetD, h2]
    · rw [result_item_pieces, hloc]
      simp [pyGetD, h2, h4, h5, Bind.bind, Except.bind, Pure.pure, Except.pure,
        Json.truthy, locDefault, defaultItemPieces,
        show ("" : String).isEmpty = true from rfl,
        show escape_html (.str "") = "" from rfl,
        show escape_html (.str "unknown") = "unknown" from rfl,
        show pyStr (.str "?") = "?" from rfl]

/-- A finding whose nested location data has the wrong shape (the first
location is a number, not an object). -/
def badLocShapeResult : Json := .obj [("locations", .arr [.num 5])]

theorem C7_malformed_finding_defaults_witness :
    get_location_info badLocShapeResult = locDefault
    ∧ get_location_info (.obj [("foo", .num 1)]) = locDefault
    ∧ result_item_pieces "warning" (.obj [("foo", .num 1)])
        = .ok defaultItemPieces :=
  ⟨C7_malformed_finding_defaults.1 badLocShapeResult .attributeError (by rfl),
    (C7_malformed_finding_defaults.2 [("foo", .num 1)]
      rfl rfl rfl rfl rfl).2.2.2.1,
    (C7_malformed_finding_defaults.2 [("foo", .num 1)]
      rfl rfl rfl rfl rfl).2.2.2.2⟩

/-! ### Claims about the loader and the process outcome -/

/-- C8: when the input cannot be read or parsed as JSON (`input = none`:
`open`/`json.load` raised inside the `try`), the load step returns the
failure flag with empty sequences (the catch-all printed a diagnostic
instead of crashing), and the run exits with status 1 producing no output
text. -/
theorem C8_load_error_no_output (filename now : String) (writeOk : Bool) :
    load_sarif none = (false, .arr [], .arr [])
    ∧ main none filename now writeOk = (1, none) :=
  ⟨rfl, rfl⟩

theorem C8_load_error_no_output_witness :
    load_sarif none = (false, .arr [], .arr [])
    ∧ main none "report.sarif" "2026-01-01 00:00:00" true = (1, none) :=
  C8_load_error_no_output "report.sarif" "2026-01-01 00:00:00" true

/-- C9: a document whose `runs` is absent or the empty sequence loads
successfully with empty result and notification sequences, and the
statistics of the empty sequence are all zero. -/
theorem C9_empty_runs (fs : List (String × Json))
    (h : fs.lookup "runs" = none ∨ fs.lookup "runs" = some (.arr [])) :
    load_sarif (some (.obj fs)) = (true, .arr [], .arr [])
    ∧ get_statistics (.arr []) = .ok ⟨0, 0, 0, 0, 0, 0, [], []⟩ := by
  constructor
  · rcases h with h | h <;>
      simp [load_sarif, load_sarif_core, pyGetD, h, Json.truthy, pyLen,
        Bind.bind, Except.bind, Pure.pure, Except.pure]
  · rfl

theorem C9_empty_runs_witness :
    load_sarif (some (.obj [])) = (true, .arr [], .arr [])
    ∧ get_statistics (.arr []) = .ok ⟨0, 0, 0, 0, 0, 0, [], []⟩ :=
  C9_empty_runs [] (Or.inl rfl)

/-- Whether the `runs` value is a non-empty array whose first element is
an object (the only shape from which `load_sarif`'s `runs[0]` path can
proceed). -/
def runsFirstElemObj : Json → Bool
  | .arr (.obj _ :: _) => true
  | _ => false

/-- A document whose `runs` is not a sequence of objects (`[{}, 5]`) but
whose first element is an object. -/
def runsJunkTail : Json := .obj [("runs", .arr [.obj [], .num 5])]

/-- C10 counterexample: `runs = [{}, 5]` is a truthy `runs` value that is
not a sequence of objects, yet loading succeeds with an empty report
(only `runs[0]` is consulted) — not the load failure the claim states. -/
theorem C10_counterexample :
    load_sarif (some runsJunkTail) = (true, .arr [], .arr []) := rfl

/-- C10 (amended): the load step never propagates an exception — it
either succeeds or returns the failure triple; valid JSON whose root is
not an object is a load failure; and a truthy `runs` value that is not an
array with an object first element is a load failure.  (An array whose
first element is an object can load successfully regardless of the shape
of the remaining elements.) -/
theorem C10_load_failure_amended :
    (∀ input : Option Json,
        (load_sarif input).1 = true ∨ load_sarif input = (false, .arr [], .arr []))
    ∧ (∀ j : Json, (∀ ms : List (String × Json), j ≠ .obj ms) →
        load_sarif (some j) = (false, .arr [], .arr []))
    ∧ (∀ (fs : List (String × Json)) (v : Json),
        fs.lookup "runs" = some v → v.truthy = true → runsFirstElemObj v = false →
        load_sarif (some (.obj fs)) = (false, .arr [], .arr [])) := by
  refine ⟨?_, ?_, ?_⟩
  · intro input
    match input with
    | none => exact Or.inr rfl
    | some data =>
      match h : load_sarif_core data with
      | .ok (r, n) => exact Or.inl (by simp [load_sarif, h])
      | .error e => exact Or.inr (by simp [load_sarif, h])
  · intro j hj
    cases j with
    | obj ms => exact absurd rfl (hj ms)
    | null =>
        simp [load_sarif, load_sarif_core, pyGetD, Bind.bind, Except.bind]
    | bool b =>
        simp [load_sarif, load_sarif_core, pyGetD, Bind.bind, Except.bind]
    | num n =>
        simp [load_sarif, load_sarif_core, pyGetD, Bind.bind, Except.bind]
    | str s2 =>
        simp [load_sarif, load_sarif_core, pyGetD, Bind.bind, Except.bind]
    | arr xs =>
        simp [load_sarif, load_sarif_core, pyGetD, Bind.bind, Except.bind]
  · intro fs v hl ht hf
    cases v with
    | null => simp [Json.truthy] at ht
    | bool b =>
        simp [load_sarif, load_sarif_core, pyGetD, pySubscr, pyIndex, hl, ht,
          Bind.bind, Except.bind]
    | num n =>
        simp [load_sarif, load_sarif_core, pyGetD, pySubscr, pyIndex, hl, ht,
          Bind.bind, Except.bind]
    | str s2 =>
        cases hg : s2.data[0]? with
        | none =>
            simp [load_sarif, load_sarif_core, pyGetD, pySubscr, pyIndex, hl, ht,
              hg, Bind.bind, Except.bind]
        | some c =>
            simp [load_sarif, load_sarif_core, pyGetD, pySubscr, pyIndex, hl, ht,
              hg, Bind.bind, Except.bind]
    | obj ms2 =>
        simp [load_sarif, load_sarif_core, pyGetD, pySubscr, pyIndex, hl, ht,
          Bind.bind, Except.bind]
    | arr xs =>
        cases xs with
        | nil => simp [Json.truthy] at ht
        | cons hd tl =>
          cases hd with
          | obj ms2 => simp [runsFirstElemObj] at hf
          | null =>
              simp [load_sarif, load_sarif_core, pyGetD, pySubscr, pyIndex, hl,
                ht, Bind.bind, Except.bind]
          | bool b =>
              simp [load_sarif, load_sarif_core, pyGetD, pySubscr, pyIndex, hl,
                ht, Bind.bind, Except.bind]
          | num n =>
              simp [load_sarif, load_sarif_core, pyGetD, pySubscr, pyIndex, hl,
                ht, Bind.bind, Except.bind]
          | str s3 =>
              simp [load_sarif, load_sarif_core, pyGetD, pySubscr, pyIndex, hl,
                ht, Bind.bind, Except.bind]
          | arr ys =>
              simp [load_sarif, load_sarif_core, pyGetD, pySubscr, pyIndex, hl,
                ht, Bind.bind, Except.bind]

theorem C10_load_failure_amended_witness :
    load_sarif (some (.num 3)) = (false, .arr [], .arr [])
    ∧ load_sarif (some (.obj [("runs", .num 7)])) = (false, .arr [], .arr []) :=
  ⟨C10_load_failure_amended.2.1 (.num 3) (fun ms h => Json.noConfusion h),
    C10_load_failure_amended.2.2 [("runs", .num 7)] (.num 7) rfl rfl rfl⟩

/-! ### Claims about the renderer: escaping and the fixed severity walk -/

/-- Whether an `Except` computation succeeded. -/
def exceptIsOk {α : Type} : Except PyErr α → Bool
  | .ok _ => true
  | .error _ => false

theorem exists_ok_of_isOk {α : Type} {e : Except PyErr α}
    (h : exceptIsOk e = true) : ∃ a, e = .ok a := by
  cases e with
  | ok a => exact ⟨a, rfl⟩
  | error err => exact absurd h (by simp [exceptIsOk])

theorem containsSub_flatten_of_any {p : List Char} {pieces : List (List Char)}
    (h : (pieces.any fun x => containsSub p x) = true) :
    containsSub p pieces.flatten = true := by
  obtain ⟨x, hmem, hx⟩ := List.any_eq_true.mp h
  exact containsSub_flatten_of_mem hmem hx

/-- The canonical injection payload of the spec. -/
def scriptPayload : String := "<script>alert(1)</script>"

/-- Its HTML-escaped rendering. -/
def escapedPayload : String := "&lt;script&gt;alert(1)&lt;/script&gt;"

/-- A finding carrying the injection payload in every user-controlled text
field: message, rule id, file URI, snippet, and tag. -/
def evilResult : Json :=
  .obj [("level", .str "error"),
        ("ruleId", .str scriptPayload),
        ("message", .obj [("text", .str scriptPayload)]),
        ("locations", .arr [.obj [("physicalLocation",
            .obj [("artifactLocation", .obj [("uri", .str scriptPayload)]),
                  ("region", .obj [("startLine", .num 3), ("startColumn", .num 5),
                     ("snippet", .obj [("text", .str scriptPayload)])])])]]),
        ("properties", .obj [("tags", .arr [.str scriptPayload])])]

/-- A notification whose text carries the injection payload. -/
def evilNotifications : Json :=
  .arr [.obj [("message", .obj [("text", .str scriptPayload)])]]

set_option maxRecDepth 100000

set_option maxHeartbeats 4000000

/-- C1: user-controlled text reaches the report only through
`escape_html`, whose output never contains a raw `<` or `>` (so escaped
fields can never contribute live markup); concretely, on a finding and a
notification carrying `<script>alert(1)</script>` in message, rule id,
file URI, snippet, tag and notification text, the whole generated report
does not contain the raw payload anywhere but does contain its escaped
form. -/
theorem C1_escaping :
    (∀ (j : Json) (c : Char), c ∈ (escape_html j).data → c ≠ '<' ∧ c ≠ '>')
    ∧ (generate_html "report.sarif" "2026-01-01 00:00:00" (.arr [evilResult])
          evilNotifications).map
        (fun page => (strContainsSub scriptPayload page,
                      strContainsSub escapedPayload page))
      = .ok (false, true) := by
  constructor
  · exact fun j c h => escape_html_no_markup j h
  · have hok : exceptIsOk (generate_html_pieces "report.sarif"
        "2026-01-01 00:00:00" (.arr [evilResult]) evilNotifications) = true := by
      decide
    obtain ⟨ps, hps⟩ := exists_ok_of_isOk hok
    have hneg : noOccChain scriptPayload.data
        (((generate_html_pieces "report.sarif" "2026-01-01 00:00:00"
            (.arr [evilResult]) evilNotifications).toOption.getD []).map
          String.data) = true := by
      decide
    have hpos : ((((generate_html_pieces "report.sarif" "2026-01-01 00:00:00"
            (.arr [evilResult]) evilNotifications).toOption.getD []).map
          String.data).any fun x => containsSub escapedPayload.data x) = true := by
      decide
    rw [hps] at hneg hpos
    simp only [Except.toOption, Option.getD] at hneg hpos
    rw [generate_html, hps]
    have hA : strContainsSub scriptPayload (String.join ps) = false := by
      rw [strContainsSub, string_join_data]
      exact noOccChain_sound (by decide) _ hneg
    have hB : strContainsSub escapedPayload (String.join ps) = true := by
      rw [strContainsSub, string_join_data]
      exact containsSub_flatten_of_any hpos
    simp only [Except.map, hA, hB]

theorem C1_escaping_witness :
    ('&' ≠ '<' ∧ '&' ≠ '>') ∧ ('a' ≠ '<' ∧ 'a' ≠ '>') :=
  ⟨C1_escaping.1 (.str "<") '&' (by decide),
    C1_escaping.1 (.str "a") 'a' (by decide)⟩

/-- A marker text that appears in no template fragment. -/
def markerText : String := "INFOMARKER12345"

/-- A finding whose unrecognized level `info` keeps it out of every
rendered severity section. -/
def infoResult : Json :=
  .obj [("level", .str "info"), ("message", .obj [("text", .str markerText)])]

/-- C5: the severity walk of the renderer reads only the `error`,
`warning` and `note` groups (two categorized tables agreeing on those
three keys render identically, so any other-level group is invisible);
when the three groups are empty no severity section is emitted; and on a
finding of level `info` the report generates without error, its message
never appears in the page, yet the finding is counted in the `total`
statistic. -/
theorem C5_severity_walk :
    (∀ c₁ c₂ : List (Json × List Json),
        c₁.lookup (.str "error") = c₂.lookup (.str "error") →
        c₁.lookup (.str "warning") = c₂.lookup (.str "warning") →
        c₁.lookup (.str "note") = c₂.lookup (.str "note") →
        severity_sections_pieces c₁ = severity_sections_pieces c₂)
    ∧ (∀ c : List (Json × List Json),
        (c.lookup (.str "error")).getD [] = [] →
        (c.lookup (.str "warning")).getD [] = [] →
        (c.lookup (.str "note")).getD [] = [] →
        severity_sections_pieces c = .ok [])
    ∧ (generate_html "report.sarif" "2026-01-01 00:00:00" (.arr [infoResult])
          (.arr [])).map (fun page => strContainsSub markerText page)
      = .ok false
    ∧ (get_statistics (.arr [infoResult])).map Stats.total = .ok 1 := by
  refine ⟨?_, ?_, ?_, rfl⟩
  · intro c₁ c₂ h1 h2 h3
    simp only [severity_sections_pieces, List.foldlM_cons, List.foldlM_nil,
      h1, h2, h3]
  · intro c h1 h2 h3
    simp [severity_sections_pieces, List.foldlM_cons, List.foldlM_nil,
      h1, h2, h3, Bind.bind, Except.bind, Pure.pure, Except.pure]
  · have hok : exceptIsOk (generate_html_pieces "report.sarif"
        "2026-01-01 00:00:00" (.arr [infoResult]) (.arr [])) = true := by
      decide
    obtain ⟨ps, hps⟩ := exists_ok_of_isOk hok
    have hneg : noOccChain markerText.data
        (((generate_html_pieces "report.sarif" "2026-01-01 00:00:00"
            (.arr [infoResult]) (.arr [])).toOption.getD []).map
          String.data) = true := by
      decide
    rw [hps] at hneg
    simp only [Except.toOption, Option.getD] at hneg
    rw [generate_html, hps]
    have hA : strContainsSub markerText (String.join ps) = false := by
      rw [strContainsSub, string_join_data]
      exact noOccChain_sound (by decide) _ hneg
    simp only [Except.map, hA]

theorem C5_severity_walk_witness :
    severity_sections_pieces [(.str "info", [infoResult])]
      = severity_sections_pieces []
    ∧ severity_sections_pieces [(.str "info", [infoResult])] = .ok [] :=
  ⟨C5_severity_walk.1 [(.str "info", [infoResult])] [] rfl rfl rfl,
    C5_severity_walk.2.1 [(.str "info", [infoResult])] rfl rfl rfl⟩

end SarifToHtml
